import Mathlib

/-!
# RacerTune — verification of the Adaptive Envelope Refinement core

A shallow embedding, over exact rationals, of the learning/blending core of
the RacerTune race-coaching system:

* `src/learning/blend_engine.py`  — `BlendConfig`, `BlendResult`, `BlendEngine`
* `src/learning/segment_stats.py` — `SegmentStatistics`, `SegmentStatsStore`
* `src/learning/decay_manager.py` — `DecayConfig`, `ConditionState`, `DecayManager`
* `src/types/envelopes.py`        — `PhysicsCeiling`, `CornerSpeedEnvelope`,
                                    `SegmentEnvelope`, `CombinedGripEnvelope`
* `src/physics/envelope_manager.py` — `EnvelopeManager.update_from_learning`
* `src/physics/combined_grip.py`  — `FrictionCircleEnforcer`

Python floats are modelled as exact rationals `ℚ` (the properties checked
here are order/field facts, not rounding facts); the one genuinely
irrational computation, the friction-circle square root, is modelled over
`ℝ` with `Real.sqrt`.  Python `dict`s are modelled as association lists
keyed by the same keys the source uses.
-/

namespace RacerTune

/-- `BlendConfig` (src/learning/blend_engine.py).  The two observation-count
fields are Python `int`s; they only ever meet rational arithmetic, so they
are carried as `ℚ` here. -/
structure BlendConfig where
  max_learned_influence : ℚ
  min_observations_for_learning : ℚ
  observations_for_full_influence : ℚ
  learned_safety_margin : ℚ

/-- The source defaults: `0.30`, `3`, `20`, `0.05`. -/
def defaultBlendConfig : BlendConfig :=
  { max_learned_influence := 3/10
    min_observations_for_learning := 3
    observations_for_full_influence := 20
    learned_safety_margin := 1/20 }

/-- `SegmentStatistics` (src/learning/segment_stats.py), the aggregated
per-segment record.  Timestamps are abstract rational instants. -/
structure SegmentStatistics where
  segment_id : ℤ
  observation_count : ℕ
  entry_speed_mean_kmh : ℚ
  entry_speed_std_kmh : ℚ
  entry_speed_max_kmh : ℚ
  apex_speed_mean_kmh : ℚ
  apex_speed_std_kmh : ℚ
  apex_speed_max_kmh : ℚ
  exit_speed_mean_kmh : ℚ
  exit_speed_std_kmh : ℚ
  exit_speed_max_kmh : ℚ
  brake_point_mean_m : ℚ
  brake_point_std_m : ℚ
  brake_point_latest_m : ℚ
  max_lateral_g_observed : ℚ
  max_longitudinal_g_observed : ℚ
  first_observation : Option ℚ
  last_observation : Option ℚ
  confidence_weighted_count : ℚ
  decay_factor : ℚ
deriving DecidableEq

/-- A `SegmentStatistics` with every field at the dataclass default
(`segment_id` is required in the source; all counters and statistics 0,
`decay_factor` 1). -/
def SegmentStatistics.mkDefault (segment_id : ℤ) : SegmentStatistics :=
  { segment_id := segment_id
    observation_count := 0
    entry_speed_mean_kmh := 0, entry_speed_std_kmh := 0, entry_speed_max_kmh := 0
    apex_speed_mean_kmh := 0, apex_speed_std_kmh := 0, apex_speed_max_kmh := 0
    exit_speed_mean_kmh := 0, exit_speed_std_kmh := 0, exit_speed_max_kmh := 0
    brake_point_mean_m := 0, brake_point_std_m := 0, brake_point_latest_m := 0
    max_lateral_g_observed := 0, max_longitudinal_g_observed := 0
    first_observation := none, last_observation := none
    confidence_weighted_count := 0
    decay_factor := 1 }

/-- `SegmentStatistics.effective_observation_count`:
`confidence_weighted_count * decay_factor`. -/
def SegmentStatistics.effective_observation_count (s : SegmentStatistics) : ℚ :=
  s.confidence_weighted_count * s.decay_factor

/-- `SegmentStatistics.has_sufficient_data`:
`effective_observation_count >= 3.0`. -/
def SegmentStatistics.has_sufficient_data (s : SegmentStatistics) : Prop :=
  3 ≤ s.effective_observation_count

instance (s : SegmentStatistics) : Decidable s.has_sufficient_data := by
  unfold SegmentStatistics.has_sufficient_data; infer_instance

/-- `SegmentStatistics.get_learned_entry_speed`: the 95th-percentile-style
estimate `mean + 2*std`, capped at the observed max, scaled by the decay
factor, and finally capped at the physics ceiling. -/
def SegmentStatistics.get_learned_entry_speed (s : SegmentStatistics)
    (physics_ceiling_kmh : ℚ) : ℚ :=
  if s.has_sufficient_data then
    let learned := min (s.entry_speed_mean_kmh + 2 * s.entry_speed_std_kmh)
      s.entry_speed_max_kmh
    min (learned * s.decay_factor) physics_ceiling_kmh
  else physics_ceiling_kmh

/-- `SegmentStatistics.get_learned_brake_point`: the conservative estimate
`max(latest observed, mean - std)`, raised to at least the physics minimum
(larger distance = earlier = safer). -/
def SegmentStatistics.get_learned_brake_point (s : SegmentStatistics)
    (physics_minimum_m : ℚ) : ℚ :=
  if s.has_sufficient_data then
    let conservative_learned := max s.brake_point_latest_m
      (s.brake_point_mean_m - s.brake_point_std_m)
    max conservative_learned physics_minimum_m
  else physics_minimum_m

/-- `BlendResult` (src/learning/blend_engine.py). -/
structure BlendResult where
  blended_value : ℚ
  physics_ceiling : ℚ
  learned_value : Option ℚ
  learned_weight : ℚ
  observation_count : ℕ
  was_physics_limited : Bool
deriving DecidableEq

/-- `BlendEngine._compute_learned_weight`: 0 below the minimum observation
count, then a linear ramp `(effective - min)/(full - min)` clamped at 1,
scaled by `max_learned_influence`. -/
def BlendConfig.compute_learned_weight (cfg : BlendConfig)
    (stats : SegmentStatistics) : ℚ :=
  let effective_count := stats.effective_observation_count
  if effective_count < cfg.min_observations_for_learning then 0
  else
    let ramp_range :=
      cfg.observations_for_full_influence - cfg.min_observations_for_learning
    let weight :=
      if ramp_range ≤ 0 then 1
      else min ((effective_count - cfg.min_observations_for_learning) / ramp_range) 1
    weight * cfg.max_learned_influence

/-- The corner-speed arithmetic of `BlendEngine.blend_corner_speed`
(lines 132–139): `blended = ceiling - (ceiling - learned) * weight`,
then `blended -= (ceiling - blended) * margin`. -/
def corner_blend (physics_ceiling learned_speed learned_weight margin : ℚ) : ℚ :=
  let blended := physics_ceiling - (physics_ceiling - learned_speed) * learned_weight
  let safety_reduction := (physics_ceiling - blended) * margin
  blended - safety_reduction

/-- The brake-point arithmetic of `BlendEngine.blend_brake_point`
(lines 198–206): `blended = learned - (learned - minimum) * weight`,
then `blended += (learned - blended) * margin`. -/
def brake_blend (physics_minimum learned_point learned_weight margin : ℚ) : ℚ :=
  let blended := learned_point - (learned_point - physics_minimum) * learned_weight
  let safety_addition := (learned_point - blended) * margin
  blended + safety_addition

/-- `BlendEngine.blend_corner_speed`.  The engine reads exactly one field
of its physics envelope argument, `max_speed_kmh`; that scalar is the
parameter here. -/
def BlendConfig.blend_corner_speed (cfg : BlendConfig) (max_speed_kmh : ℚ)
    (segment_stats : Option SegmentStatistics) : BlendResult :=
  let physics_ceiling := max_speed_kmh
  match segment_stats with
  | none =>
      { blended_value := physics_ceiling
        physics_ceiling := physics_ceiling
        learned_value := none
        learned_weight := 0
        observation_count := 0
        was_physics_limited := false }
  | some stats =>
      if stats.has_sufficient_data then
        let learned_speed := stats.get_learned_entry_speed physics_ceiling
        let learned_weight := cfg.compute_learned_weight stats
        if physics_ceiling < learned_speed then
          { blended_value := physics_ceiling
            physics_ceiling := physics_ceiling
            learned_value := some learned_speed
            learned_weight := 0
            observation_count := stats.observation_count
            was_physics_limited := true }
        else
          { blended_value :=
              corner_blend physics_ceiling learned_speed learned_weight
                cfg.learned_safety_margin
            physics_ceiling := physics_ceiling
            learned_value := some learned_speed
            learned_weight := learned_weight
            observation_count := stats.observation_count
            was_physics_limited := false }
      else
        { blended_value := physics_ceiling
          physics_ceiling := physics_ceiling
          learned_value := none
          learned_weight := 0
          observation_count := stats.observation_count
          was_physics_limited := false }

/-- `BlendEngine.blend_brake_point`.  The engine reads exactly one field of
its physics envelope argument, `minimum_brake_distance_m`; that scalar is
the parameter here. -/
def BlendConfig.blend_brake_point (cfg : BlendConfig) (minimum_brake_distance_m : ℚ)
    (segment_stats : Option SegmentStatistics) : BlendResult :=
  let physics_minimum := minimum_brake_distance_m
  match segment_stats with
  | none =>
      { blended_value := physics_minimum
        physics_ceiling := physics_minimum
        learned_value := none
        learned_weight := 0
        observation_count := 0
        was_physics_limited := false }
  | some stats =>
      if stats.has_sufficient_data then
        let learned_point := stats.get_learned_brake_point physics_minimum
        let learned_weight := cfg.compute_learned_weight stats
        if learned_point < physics_minimum then
          { blended_value := physics_minimum
            physics_ceiling := physics_minimum
            learned_value := some learned_point
            learned_weight := 0
            observation_count := stats.observation_count
            was_physics_limited := true }
        else
          { blended_value :=
              brake_blend physics_minimum learned_point learned_weight
                cfg.learned_safety_margin
            physics_ceiling := physics_minimum
            learned_value := some learned_point
            learned_weight := learned_weight
            observation_count := stats.observation_count
            was_physics_limited := false }
      else
        { blended_value := physics_minimum
          physics_ceiling := physics_minimum
          learned_value := none
          learned_weight := 0
          observation_count := stats.observation_count
          was_physics_limited := false }

/-! ## Envelope types (src/types/envelopes.py) and the Envelope Manager -/

/-- `PhysicsCeiling` (src/types/envelopes.py): an immutable, source-tagged
scalar.  The class is reused for both km/h ceilings (rational model) and
the normalized grip ceiling (real model), so the carrier is a parameter. -/
structure PhysicsCeiling (R : Type) where
  value : R
  unit : String
  source : String
deriving DecidableEq

/-- `CornerSpeedEnvelope` (src/types/envelopes.py).  `corner_radius_m`
uses `none` for Python's `float('inf')` default; the `Confidence` bundle
is carried opaquely nowhere — no blend or invariant reads it. -/
structure CornerSpeedEnvelope where
  segment_id : ℤ
  distance_start_m : ℚ
  distance_end_m : ℚ
  physics_ceiling_kmh : PhysicsCeiling ℚ
  conservative_speed_kmh : ℚ
  learned_speed_kmh : Option ℚ
  learning_confidence : ℚ
  envelope_speed_kmh : ℚ
  corner_radius_m : Option ℚ
  curvature_1_per_m : ℚ
deriving DecidableEq

/-- The `CornerSpeedEnvelope` constructor including `__post_init__`:
if the requested envelope speed exceeds the physics ceiling it is clamped
down to the ceiling (safety invariant S2). -/
def mkCornerSpeedEnvelope (segment_id : ℤ) (distance_start_m distance_end_m : ℚ)
    (physics_ceiling_kmh : PhysicsCeiling ℚ) (conservative_speed_kmh : ℚ)
    (learned_speed_kmh : Option ℚ) (learning_confidence : ℚ)
    (envelope_speed_kmh : ℚ) (corner_radius_m : Option ℚ)
    (curvature_1_per_m : ℚ) : CornerSpeedEnvelope :=
  { segment_id := segment_id
    distance_start_m := distance_start_m
    distance_end_m := distance_end_m
    physics_ceiling_kmh := physics_ceiling_kmh
    conservative_speed_kmh := conservative_speed_kmh
    learned_speed_kmh := learned_speed_kmh
    learning_confidence := learning_confidence
    envelope_speed_kmh :=
      if physics_ceiling_kmh.value < envelope_speed_kmh then
        physics_ceiling_kmh.value
      else envelope_speed_kmh
    corner_radius_m := corner_radius_m
    curvature_1_per_m := curvature_1_per_m }

/-- `CornerSpeedEnvelope.blend_with_learned`: the blend weight is clamped
to `[0, 0.3]`, the conservative and learned speeds are mixed linearly, the
result is clamped to the physics ceiling, and a new envelope is built (so
`__post_init__` runs again). -/
def CornerSpeedEnvelope.blend_with_learned (e : CornerSpeedEnvelope)
    (learned_speed_kmh blend_weight : ℚ) : CornerSpeedEnvelope :=
  let weight := max 0 (min (3/10) blend_weight)
  let blended := (1 - weight) * e.conservative_speed_kmh + weight * learned_speed_kmh
  let final := min blended e.physics_ceiling_kmh.value
  mkCornerSpeedEnvelope e.segment_id e.distance_start_m e.distance_end_m
    e.physics_ceiling_kmh e.conservative_speed_kmh (some learned_speed_kmh)
    blend_weight final e.corner_radius_m e.curvature_1_per_m

/-- `SegmentEnvelope` (src/types/envelopes.py), restricted to the fields
`EnvelopeManager.update_from_learning` reads or replaces; the braking,
steering, grip and confidence fields are copied verbatim by that method
and are not modelled. -/
structure SegmentEnvelope where
  segment_id : ℤ
  distance_start_m : ℚ
  distance_end_m : ℚ
  corner_speed : Option CornerSpeedEnvelope
deriving DecidableEq

/-- Safety invariant S2 for one corner-speed envelope:
`envelope_speed ≤ physics_ceiling.value`. -/
def ceilingInvariant (e : CornerSpeedEnvelope) : Prop :=
  e.envelope_speed_kmh ≤ e.physics_ceiling_kmh.value

instance (e : CornerSpeedEnvelope) : Decidable (ceilingInvariant e) := by
  unfold ceilingInvariant; infer_instance

/-- `EnvelopeManager.update_from_learning` (src/physics/envelope_manager.py).
The manager's `_segment_envelopes` dict is an association list keyed by
segment id.  Returns the updated map and the method's boolean result:
`false` when the segment is unknown or has no corner-speed envelope,
otherwise the stored segment envelope is rebuilt with the blended
corner-speed envelope (all other fields kept). -/
def update_from_learning (envelopes : List (ℤ × SegmentEnvelope))
    (segment_id : ℤ) (learned_speed_kmh blend_weight : ℚ) :
    List (ℤ × SegmentEnvelope) × Bool :=
  match envelopes.lookup segment_id with
  | none => (envelopes, false)
  | some envelope =>
      match envelope.corner_speed with
      | none => (envelopes, false)
      | some corner =>
          (envelopes.map (fun p =>
            if p.1 = segment_id then
              (p.1,
                { segment_id := envelope.segment_id
                  distance_start_m := envelope.distance_start_m
                  distance_end_m := envelope.distance_end_m
                  corner_speed :=
                    some (corner.blend_with_learned learned_speed_kmh blend_weight) })
            else p), true)

/-! ## Segment statistics store (src/learning/segment_stats.py) -/

/-- `SegmentObservation`: one driver pass through a segment (timestamps
are abstract rational instants). -/
structure SegmentObservation where
  segment_id : ℤ
  timestamp : ℚ
  entry_speed_kmh : ℚ
  apex_speed_kmh : ℚ
  exit_speed_kmh : ℚ
  min_speed_kmh : ℚ
  max_lateral_g : ℚ
  max_longitudinal_g : ℚ
  brake_point_distance_m : ℚ
  brake_intensity_peak : ℚ
  max_steering_rate_deg_s : ℚ
  was_clean : Bool
  was_full_commitment : Bool
  confidence : ℚ
deriving DecidableEq

/-- `np.sum` over a list of rationals. -/
def listSum (xs : List ℚ) : ℚ := xs.foldl (fun a x => a + x) 0

/-- `np.mean` (0 on the empty list; the store only calls it on non-empty
windows). -/
def listMean (xs : List ℚ) : ℚ := listSum xs / xs.length

/-- `np.max` (0 on the empty list; the store only calls it on non-empty
windows). -/
def listMax (xs : List ℚ) : ℚ :=
  match xs with
  | [] => 0
  | h :: t => t.foldl max h

/-- `np.min` (0 on the empty list; the store only calls it on non-empty
windows). -/
def listMin (xs : List ℚ) : ℚ :=
  match xs with
  | [] => 0
  | h :: t => t.foldl min h

/-- The population variance `mean((x - mean xs)^2)` underlying `np.std`. -/
def npVariance (xs : List ℚ) : ℚ :=
  listMean (xs.map (fun x => (x - listMean xs) ^ 2))

/-- `np.std` is the square root of the population variance.  `ℚ` has no
square-root operation, so the embedding stores the variance itself in the
std fields (`npStd xs` stands for the quantity whose square root the
source stores).  No theorem in this file reads a std field out of a
recomputed store, so nothing proved here depends on this representation. -/
def npStd (xs : List ℚ) : ℚ := npVariance xs

/-- `SegmentStatsStore` (src/learning/segment_stats.py): both per-segment
dicts as association lists, plus the window capacity (default 100). -/
structure SegmentStatsStore where
  _stats : List (ℤ × SegmentStatistics)
  _observations : List (ℤ × List SegmentObservation)
  _max_observations : ℕ
deriving DecidableEq

/-- A freshly constructed store with the default window capacity. -/
def emptyStore : SegmentStatsStore :=
  { _stats := [], _observations := [], _max_observations := 100 }

/-- `SegmentStatsStore._update_statistics`: recompute the segment's
statistics from its full retained window.  (The Python code indexes
`self._stats[segment_id]` directly; on `add_observation`'s call path the
entry always exists, and the unreachable missing-entry case leaves the
store unchanged.) -/
def update_statistics (store : SegmentStatsStore) (segment_id : ℤ) :
    SegmentStatsStore :=
  let observations := (store._observations.lookup segment_id).getD []
  if observations = [] then store
  else
    match store._stats.lookup segment_id with
    | none => store
    | some stats =>
        let entry_speeds := observations.map (fun o => o.entry_speed_kmh)
        let apex_speeds := observations.map (fun o => o.apex_speed_kmh)
        let exit_speeds := observations.map (fun o => o.exit_speed_kmh)
        let brake_points := observations.map (fun o => o.brake_point_distance_m)
        let lateral_gs := observations.map (fun o => o.max_lateral_g)
        let long_gs := observations.map (fun o => o.max_longitudinal_g)
        let confidences := observations.map (fun o => o.confidence)
        let stats2 :=
          { stats with
            observation_count := observations.length
            confidence_weighted_count := listSum confidences
            entry_speed_mean_kmh := listMean entry_speeds
            entry_speed_std_kmh := npStd entry_speeds
            entry_speed_max_kmh := listMax entry_speeds
            apex_speed_mean_kmh := listMean apex_speeds
            apex_speed_std_kmh := npStd apex_speeds
            apex_speed_max_kmh := listMax apex_speeds
            exit_speed_mean_kmh := listMean exit_speeds
            exit_speed_std_kmh := npStd exit_speeds
            exit_speed_max_kmh := listMax exit_speeds
            brake_point_mean_m := listMean brake_points
            brake_point_std_m := npStd brake_points
            brake_point_latest_m := listMin brake_points
            max_lateral_g_observed := listMax lateral_gs
            max_longitudinal_g_observed := listMax long_gs
            first_observation := (observations.head?).map (fun o => o.timestamp)
            last_observation := (observations.getLast?).map (fun o => o.timestamp) }
        { store with
          _stats := store._stats.map (fun p =>
            if p.1 = segment_id then (p.1, stats2) else p) }

/-- `SegmentStatsStore.add_observation`: reject dirty observations
(`was_clean = false`) and low-confidence observations (`confidence < 0.7`)
as no-ops; otherwise initialize the segment's window and statistics if
absent, append the observation, trim the oldest entry past the capacity,
and recompute statistics. -/
def add_observation (store : SegmentStatsStore)
    (observation : SegmentObservation) : SegmentStatsStore :=
  if observation.was_clean = false then store
  else if observation.confidence < 7/10 then store
  else
    let segment_id := observation.segment_id
    let store1 :=
      if (store._observations.lookup segment_id).isNone then
        { store with
          _observations := store._observations ++ [(segment_id, [])]
          _stats := store._stats ++
            [(segment_id, SegmentStatistics.mkDefault segment_id)] }
      else store
    let store2 :=
      { store1 with
        _observations := store1._observations.map (fun p =>
          if p.1 = segment_id then
            let obs_list := p.2 ++ [observation]
            (p.1,
              if store1._max_observations < obs_list.length then obs_list.drop 1
              else obs_list)
          else p) }
    update_statistics store2 segment_id

/-- `SegmentStatsStore.apply_global_decay`: overwrite every segment's
decay factor. -/
def apply_global_decay (store : SegmentStatsStore) (decay_factor : ℚ) :
    SegmentStatsStore :=
  { store with
    _stats := store._stats.map (fun p =>
      (p.1, { p.2 with decay_factor := decay_factor })) }

/-! ## Decay manager (src/learning/decay_manager.py) -/

/-- `DecayTrigger`. -/
inductive DecayTrigger where
  | NONE
  | WEATHER_CHANGE
  | TEMPERATURE_CHANGE
  | SURFACE_CHANGE
  | NEW_SESSION
  | LONG_BREAK
  | TIRE_CHANGE
  | VEHICLE_CHANGE
  | MANUAL_RESET
  | DATA_AGE
deriving DecidableEq

/-- `DecayConfig`. -/
structure DecayConfig where
  max_data_age_hours : ℚ
  half_life_hours : ℚ
  session_break_threshold_minutes : ℚ
  session_break_decay_factor : ℚ
  weather_change_decay : ℚ
  temperature_change_per_10c : ℚ
  surface_change_decay : ℚ
  tire_change_decay : ℚ
  vehicle_change_decay : ℚ
  min_decay_factor : ℚ

/-- The source defaults. -/
def defaultDecayConfig : DecayConfig :=
  { max_data_age_hours := 24
    half_life_hours := 8
    session_break_threshold_minutes := 60
    session_break_decay_factor := 1/2
    weather_change_decay := 0
    temperature_change_per_10c := 1/5
    surface_change_decay := 0
    tire_change_decay := 3/10
    vehicle_change_decay := 0
    min_decay_factor := 1/10 }

/-- `ConditionState`; `last_activity` is an abstract instant measured in
minutes, so a `timedelta` comparison against a minutes threshold is a
plain subtraction. -/
structure ConditionState where
  is_dry : Bool
  ambient_temp_c : ℚ
  track_temp_c : ℚ
  surface_type : String
  surface_condition : String
  tire_compound : String
  vehicle_id : String
  last_activity : ℚ
deriving DecidableEq

/-- `DecayManager` state: configuration, the optional borrowed statistics
store and the previous condition snapshot.  (`_decay_history` only records
wall-clock trigger times and is not modelled.) -/
structure DecayManager where
  config : DecayConfig
  stats : Option SegmentStatsStore
  _previous_conditions : Option ConditionState

/-- `DecayManager._combine_decay_factors`: multiply all triggered factors,
then floor the product at `min_decay_factor` (the empty dict yields 1). -/
def combine_decay_factors (cfg : DecayConfig)
    (decays : List (DecayTrigger × ℚ)) : ℚ :=
  if decays = [] then 1
  else max (decays.foldl (fun combined p => combined * p.2) 1) cfg.min_decay_factor

/-- `DecayManager.update_conditions`: compare the current snapshot with the
previous one, collect `(trigger, factor)` pairs in source order (the dict
keys are distinct, so the insertion-ordered dict is a list), apply the
combined factor to the store when at least one trigger fired, and advance
the previous-snapshot state. -/
def update_conditions (m : DecayManager) (current_conditions : ConditionState) :
    DecayManager × List (DecayTrigger × ℚ) :=
  match m._previous_conditions with
  | none => ({ m with _previous_conditions := some current_conditions }, [])
  | some prev =>
      let weather :=
        if current_conditions.is_dry ≠ prev.is_dry then
          [(DecayTrigger.WEATHER_CHANGE, m.config.weather_change_decay)]
        else []
      let temp_delta := |current_conditions.track_temp_c - prev.track_temp_c|
      let temperature :=
        if 10 ≤ temp_delta then
          let decay_amount := (⌊temp_delta / 10⌋ : ℚ) * m.config.temperature_change_per_10c
          [(DecayTrigger.TEMPERATURE_CHANGE, max 0 (1 - decay_amount))]
        else []
      let surface :=
        if current_conditions.surface_type ≠ prev.surface_type ∨
            current_conditions.surface_condition ≠ prev.surface_condition then
          [(DecayTrigger.SURFACE_CHANGE, m.config.surface_change_decay)]
        else []
      let long_break :=
        if m.config.session_break_threshold_minutes <
            current_conditions.last_activity - prev.last_activity then
          [(DecayTrigger.LONG_BREAK, m.config.session_break_decay_factor)]
        else []
      let tire :=
        if current_conditions.tire_compound ≠ prev.tire_compound then
          [(DecayTrigger.TIRE_CHANGE, m.config.tire_change_decay)]
        else []
      let vehicle :=
        if current_conditions.vehicle_id ≠ "" ∧ prev.vehicle_id ≠ "" ∧
            current_conditions.vehicle_id ≠ prev.vehicle_id then
          [(DecayTrigger.VEHICLE_CHANGE, m.config.vehicle_change_decay)]
        else []
      let triggered_decays :=
        weather ++ temperature ++ surface ++ long_break ++ tire ++ vehicle
      let stats2 :=
        if triggered_decays ≠ [] then
          match m.stats with
          | some st =>
              some (apply_global_decay st (combine_decay_factors m.config triggered_decays))
          | none => none
        else m.stats
      ({ m with stats := stats2, _previous_conditions := some current_conditions },
        triggered_decays)

/-! ## Friction circle (src/physics/combined_grip.py) -/

/-- `FrictionCircleConfig`, over `ℝ` (these values feed the square
root). -/
structure FrictionCircleConfig where
  max_grip_normalized : ℝ
  longitudinal_factor : ℝ
  lateral_factor : ℝ
  stability_margin : ℝ
  warning_threshold : ℝ
  critical_threshold : ℝ

/-- The source defaults: circle shape (both factors 1), 15% reserve. -/
noncomputable def defaultFrictionCircleConfig : FrictionCircleConfig :=
  { max_grip_normalized := 1
    longitudinal_factor := 1
    lateral_factor := 1
    stability_margin := 3/20
    warning_threshold := 3/4
    critical_threshold := 9/10 }

/-- `CombinedGripEnvelope` (src/types/envelopes.py), over `ℝ`. -/
structure CombinedGripEnvelope where
  max_total_grip : PhysicsCeiling ℝ
  longitudinal_grip_used : ℝ
  lateral_grip_used : ℝ
  stability_margin : ℝ

/-- `CombinedGripEnvelope.total_grip_used`: the Euclidean norm of the two
stored grip fractions. -/
noncomputable def CombinedGripEnvelope.total_grip_used
    (e : CombinedGripEnvelope) : ℝ :=
  Real.sqrt (e.longitudinal_grip_used ^ 2 + e.lateral_grip_used ^ 2)

/-- `FrictionCircleEnforcer.compute_grip_usage`: normalize each axis to
its grip capacity, shape both fractions, compute the shaped total — and
return an envelope that stores the *unshaped* fractions (the local
`total` is discarded by the source). -/
noncomputable def compute_grip_usage (cfg : FrictionCircleConfig)
    (longitudinal_g lateral_g max_longitudinal_g max_lateral_g : ℝ) :
    CombinedGripEnvelope :=
  let fx := |longitudinal_g| / max_longitudinal_g
  let fy := |lateral_g| / max_lateral_g
  let fx_shaped := fx / cfg.longitudinal_factor
  let fy_shaped := fy / cfg.lateral_factor
  let total := Real.sqrt (fx_shaped ^ 2 + fy_shaped ^ 2)
  { max_total_grip :=
      { value := cfg.max_grip_normalized
        unit := "normalized"
        source := "friction_circle" }
    longitudinal_grip_used := fx
    lateral_grip_used := fy
    stability_margin := cfg.stability_margin }

/-- The total the specification says `compute_grip_usage` reports
(§4.1: "applies independent shape factors … and reports
`total = sqrt(fx_shaped² + fy_shaped²)`"), written from the spec's words
for comparison with the source's returned envelope. -/
noncomputable def spec_shaped_total (cfg : FrictionCircleConfig)
    (longitudinal_g lateral_g max_longitudinal_g max_lateral_g : ℝ) : ℝ :=
  Real.sqrt ((|longitudinal_g| / max_longitudinal_g / cfg.longitudinal_factor) ^ 2 +
    (|lateral_g| / max_lateral_g / cfg.lateral_factor) ^ 2)

/-- A friction-circle configuration with an elliptical longitudinal shape
factor of 0.5 (the claim quantifies over every configuration). -/
noncomputable def halfLongFrictionCircleConfig : FrictionCircleConfig :=
  { defaultFrictionCircleConfig with longitudinal_factor := 1/2 }

/-! ### Concrete statistics values used to instantiate theorems -/

/-- Statistics of a segment with 20 full-confidence clean observations whose
entry speeds average 80 km/h (no spread, fastest 90 km/h). -/
def corner_witness_stats : SegmentStatistics :=
  { SegmentStatistics.mkDefault 1 with
    entry_speed_mean_kmh := 80
    entry_speed_std_kmh := 0
    entry_speed_max_kmh := 90
    observation_count := 20
    confidence_weighted_count := 20 }

/-- Statistics of a segment whose driver has been braking at 60 m
(latest, mean and conservative estimate all 60 m), with 20 observations. -/
def brake60_stats : SegmentStatistics :=
  { SegmentStatistics.mkDefault 1 with
    brake_point_mean_m := 60
    brake_point_std_m := 0
    brake_point_latest_m := 60
    observation_count := 20
    confidence_weighted_count := 20 }

/-- Statistics with effective observation count 2 (below the learning
minimum of 3). -/
def few_obs_stats : SegmentStatistics :=
  { SegmentStatistics.mkDefault 1 with
    observation_count := 2
    confidence_weighted_count := 2 }

/-- Statistics with effective observation count 10 (mid-ramp). -/
def mid_obs_stats : SegmentStatistics :=
  { SegmentStatistics.mkDefault 1 with
    observation_count := 10
    confidence_weighted_count := 10 }

/-- Statistics with effective observation count 25 (beyond the
full-influence threshold of 20). -/
def many_obs_stats : SegmentStatistics :=
  { SegmentStatistics.mkDefault 1 with
    observation_count := 25
    confidence_weighted_count := 25 }

/-- A corner-speed envelope with ceiling 120 km/h and conservative /
envelope speed 90 km/h. -/
def c4_env : CornerSpeedEnvelope :=
  mkCornerSpeedEnvelope 1 0 100
    { value := 120, unit := "km/h", source := "friction_limit" }
    90 none 0 90 none 0

/-- A segment envelope holding `c4_env`. -/
def c4_seg : SegmentEnvelope :=
  { segment_id := 1, distance_start_m := 0, distance_end_m := 100,
    corner_speed := some c4_env }

/-- `c4_env` after learning a (ceiling-violating) 200 km/h at weight 1. -/
def c4_updated_env : CornerSpeedEnvelope := c4_env.blend_with_learned 200 1

/-- The segment envelope the manager stores after that update. -/
def c4_updated_seg : SegmentEnvelope :=
  { segment_id := 1, distance_start_m := 0, distance_end_m := 100,
    corner_speed := some c4_updated_env }

/-- The dirty observation from the repository's own test suite
(`was_clean = False`, confidence 0.9). -/
def dirty_observation : SegmentObservation :=
  { segment_id := 1, timestamp := 0, entry_speed_kmh := 100,
    apex_speed_kmh := 80, exit_speed_kmh := 90, min_speed_kmh := 75,
    max_lateral_g := 4/5, max_longitudinal_g := 1/2,
    brake_point_distance_m := 50, brake_intensity_peak := 7/10,
    max_steering_rate_deg_s := 50, was_clean := false,
    was_full_commitment := false, confidence := 9/10 }

/-- A dry-session condition snapshot on street tires. -/
def prev_conditions : ConditionState :=
  { is_dry := true, ambient_temp_c := 20, track_temp_c := 30,
    surface_type := "asphalt", surface_condition := "normal",
    tire_compound := "street", vehicle_id := "car-1", last_activity := 0 }

/-- The same session half an hour later: now wet and on fresh slicks
(weather change and tire change fire simultaneously). -/
def wet_newtires_conditions : ConditionState :=
  { is_dry := false, ambient_temp_c := 20, track_temp_c := 30,
    surface_type := "asphalt", surface_condition := "normal",
    tire_compound := "slick", vehicle_id := "car-1", last_activity := 30 }

/-- A one-segment statistics store to feed the decay manager. -/
def decay_witness_store : SegmentStatsStore :=
  { _stats := [(1, corner_witness_stats)], _observations := [],
    _max_observations := 100 }

/-! ## Helper lemmas -/

/-- The computed learned weight is never negative (for a non-negative
maximum-influence cap). -/
theorem compute_learned_weight_nonneg (cfg : BlendConfig) (s : SegmentStatistics)
    (h : 0 ≤ cfg.max_learned_influence) : 0 ≤ cfg.compute_learned_weight s := by
  simp only [BlendConfig.compute_learned_weight]
  split
  · exact le_refl 0
  · rename_i hmin
    apply mul_nonneg _ h
    split
    · norm_num
    · rename_i hramp
      exact le_min (div_nonneg (by linarith [not_lt.mp (by exact fun hc => hmin hc)])
        (le_of_lt (not_le.mp hramp))) (by norm_num)

/-- The computed learned weight never exceeds the maximum-influence cap. -/
theorem compute_learned_weight_le (cfg : BlendConfig) (s : SegmentStatistics)
    (h : 0 ≤ cfg.max_learned_influence) :
    cfg.compute_learned_weight s ≤ cfg.max_learned_influence := by
  simp only [BlendConfig.compute_learned_weight]
  split
  · exact h
  · have hw : (if cfg.observations_for_full_influence -
        cfg.min_observations_for_learning ≤ 0 then (1:ℚ)
        else min ((s.effective_observation_count -
          cfg.min_observations_for_learning) /
          (cfg.observations_for_full_influence -
            cfg.min_observations_for_learning)) 1) ≤ 1 := by
      split
      · exact le_refl 1
      · exact min_le_right _ _
    exact mul_le_of_le_one_left h hw

/-- Upper half of the corner-blend arithmetic: the blended value cannot
exceed the ceiling. -/
theorem corner_blend_le (C L w m : ℚ) (hL : L ≤ C) (hw : 0 ≤ w) (hm : 0 ≤ m) :
    corner_blend C L w m ≤ C := by
  simp only [corner_blend]
  nlinarith [mul_nonneg (mul_nonneg (sub_nonneg.2 hL) hw) hm,
    mul_nonneg (sub_nonneg.2 hL) hw]

/-- Strict version: a positive weight and strictly-below-ceiling learned
value pull the blended value strictly below the ceiling. -/
theorem corner_blend_lt (C L w m : ℚ) (hL : L < C) (hw : 0 < w) (hm : 0 ≤ m) :
    corner_blend C L w m < C := by
  simp only [corner_blend]
  nlinarith [mul_pos (sub_pos.2 hL) hw,
    mul_nonneg (mul_nonneg (sub_nonneg.2 hL.le) hw.le) hm]

/-- The blend stays above the learned value provided `w * (1 + m) ≤ 1`
(which holds for every weight the engine can produce: `w ≤ 0.30`,
`m = 0.05`). -/
theorem corner_blend_ge (C L w m : ℚ) (hL : L ≤ C) (hw : 0 ≤ w) (hm : 0 ≤ m)
    (hwm : w * (1 + m) ≤ 1) : L ≤ corner_blend C L w m := by
  simp only [corner_blend]
  nlinarith [mul_nonneg (sub_nonneg.2 hL) (by linarith : (0:ℚ) ≤ 1 - w * (1 + m))]

/-- `blend_corner_speed` on absent statistics. -/
theorem blend_corner_speed_none (cfg : BlendConfig) (C : ℚ) :
    cfg.blend_corner_speed C none =
      { blended_value := C, physics_ceiling := C, learned_value := none,
        learned_weight := 0, observation_count := 0,
        was_physics_limited := false } := rfl

/-- `blend_corner_speed` on statistics with insufficient data. -/
theorem blend_corner_speed_insufficient (cfg : BlendConfig) (C : ℚ)
    (s : SegmentStatistics) (h : ¬ s.has_sufficient_data) :
    cfg.blend_corner_speed C (some s) =
      { blended_value := C, physics_ceiling := C, learned_value := none,
        learned_weight := 0, observation_count := s.observation_count,
        was_physics_limited := false } := by
  simp [BlendConfig.blend_corner_speed, h]

/-- `blend_corner_speed` on sufficient statistics whose capped learned speed
does not exceed the ceiling (the only reachable learning branch, since the
accessor caps at the ceiling). -/
theorem blend_corner_speed_main (cfg : BlendConfig) (C : ℚ)
    (s : SegmentStatistics) (h : s.has_sufficient_data)
    (hle : ¬ C < s.get_learned_entry_speed C) :
    cfg.blend_corner_speed C (some s) =
      { blended_value := corner_blend C (s.get_learned_entry_speed C)
          (cfg.compute_learned_weight s) cfg.learned_safety_margin
        physics_ceiling := C
        learned_value := some (s.get_learned_entry_speed C)
        learned_weight := cfg.compute_learned_weight s
        observation_count := s.observation_count
        was_physics_limited := false } := by
  simp [BlendConfig.blend_corner_speed, h, hle]

/-- `blend_brake_point` on absent statistics. -/
theorem blend_brake_point_none (cfg : BlendConfig) (P : ℚ) :
    cfg.blend_brake_point P none =
      { blended_value := P, physics_ceiling := P, learned_value := none,
        learned_weight := 0, observation_count := 0,
        was_physics_limited := false } := rfl

/-- `blend_brake_point` on statistics with insufficient data. -/
theorem blend_brake_point_insufficient (cfg : BlendConfig) (P : ℚ)
    (s : SegmentStatistics) (h : ¬ s.has_sufficient_data) :
    cfg.blend_brake_point P (some s) =
      { blended_value := P, physics_ceiling := P, learned_value := none,
        learned_weight := 0, observation_count := s.observation_count,
        was_physics_limited := false } := by
  simp [BlendConfig.blend_brake_point, h]

/-- The store accessor never returns a brake point below the physics
minimum. -/
theorem get_learned_brake_point_ge (s : SegmentStatistics) (P : ℚ) :
    P ≤ s.get_learned_brake_point P := by
  unfold SegmentStatistics.get_learned_brake_point
  split
  · exact le_max_right _ _
  · exact le_refl P

/-- `blend_brake_point` on sufficient statistics: the accessor clamps the
learned point up to the physics minimum, so the physics-limited branch is
never taken. -/
theorem blend_brake_point_main (cfg : BlendConfig) (P : ℚ)
    (s : SegmentStatistics) (h : s.has_sufficient_data) :
    cfg.blend_brake_point P (some s) =
      { blended_value := brake_blend P (s.get_learned_brake_point P)
          (cfg.compute_learned_weight s) cfg.learned_safety_margin
        physics_ceiling := P
        learned_value := some (s.get_learned_brake_point P)
        learned_weight := cfg.compute_learned_weight s
        observation_count := s.observation_count
        was_physics_limited := false } := by
  simp [BlendConfig.blend_brake_point, h, not_lt.2 (get_learned_brake_point_ge s P)]

/-! ## Claim theorems -/

/-- C1.  For every physics ceiling `C` and every segment-statistics value
(including absent statistics), `blend_corner_speed` (default configuration)
returns a blended value that never exceeds `C`; and whenever the computed
learned weight is positive and the learned speed is strictly below `C`, the
blended value is strictly below `C`. -/
theorem C1_blend_corner_speed_respects_ceiling (C : ℚ)
    (stats : Option SegmentStatistics) :
    (defaultBlendConfig.blend_corner_speed C stats).blended_value ≤ C ∧
    (∀ L : ℚ,
      (defaultBlendConfig.blend_corner_speed C stats).learned_value = some L →
      0 < (defaultBlendConfig.blend_corner_speed C stats).learned_weight →
      L < C →
      (defaultBlendConfig.blend_corner_speed C stats).blended_value < C) := by
  have hmax : (0:ℚ) ≤ defaultBlendConfig.max_learned_influence := by norm_num [defaultBlendConfig]
  have hmargin : (0:ℚ) ≤ defaultBlendConfig.learned_safety_margin := by norm_num [defaultBlendConfig]
  cases stats with
  | none =>
      rw [blend_corner_speed_none]
      exact ⟨le_refl C, fun L hL => by simp at hL⟩
  | some s =>
      by_cases hs : s.has_sufficient_data
      · by_cases hlt : C < s.get_learned_entry_speed C
        · simp only [BlendConfig.blend_corner_speed, if_pos hs, if_pos hlt]
          exact ⟨le_refl C, fun L _ hw _ => absurd hw (by norm_num)⟩
        · rw [blend_corner_speed_main _ _ _ hs hlt]
          have hle : s.get_learned_entry_speed C ≤ C := not_lt.mp hlt
          have hw0 : 0 ≤ defaultBlendConfig.compute_learned_weight s :=
            compute_learned_weight_nonneg _ _ hmax
          refine ⟨corner_blend_le _ _ _ _ hle hw0 hmargin, ?_⟩
          intro L hL hw hLC
          have : s.get_learned_entry_speed C = L := by
            simpa using hL
          subst this
          exact corner_blend_lt _ _ _ _ hLC hw hmargin
      · rw [blend_corner_speed_insufficient _ _ _ hs]
        exact ⟨le_refl C, fun L hL => by simp at hL⟩

/-- Full evaluation of the default-configuration corner blend on
`corner_witness_stats` with ceiling 100: learned 80, weight 0.30,
blended 93.7. -/
theorem corner_witness_eval :
    defaultBlendConfig.blend_corner_speed 100 (some corner_witness_stats) =
      { blended_value := 937/10, physics_ceiling := 100, learned_value := some 80,
        learned_weight := 3/10, observation_count := 20,
        was_physics_limited := false } := by
  norm_num [BlendConfig.blend_corner_speed, corner_blend,
    BlendConfig.compute_learned_weight,
    SegmentStatistics.get_learned_entry_speed,
    SegmentStatistics.has_sufficient_data,
    SegmentStatistics.effective_observation_count,
    corner_witness_stats, SegmentStatistics.mkDefault, defaultBlendConfig]

/-- C1 witness: ceiling 100, 20 clean observations averaging 80 km/h —
the learned weight is the full 0.30, the learned speed 80 is below the
ceiling, and the blended value 93.7 is strictly below 100. -/
theorem C1_blend_corner_speed_respects_ceiling_witness :
    (defaultBlendConfig.blend_corner_speed 100 (some corner_witness_stats)).learned_value
        = some 80 ∧
    0 < (defaultBlendConfig.blend_corner_speed 100 (some corner_witness_stats)).learned_weight ∧
    (80:ℚ) < 100 ∧
    (defaultBlendConfig.blend_corner_speed 100 (some corner_witness_stats)).blended_value < 100 :=
  ⟨by rw [corner_witness_eval], by rw [corner_witness_eval]; norm_num, by norm_num,
    (C1_blend_corner_speed_respects_ceiling 100 (some corner_witness_stats)).2 80
      (by rw [corner_witness_eval]) (by rw [corner_witness_eval]; norm_num)
      (by norm_num)⟩

/-- Evaluation of the default-configuration brake blend on `brake60_stats`
(driver brake estimate 60 m) with physics minimum 80 m: the accessor clamps
the learned point up to 80, the blended value is 80, the learned weight is
the normal 0.30 and the physics-limited flag stays false. -/
theorem brake60_eval :
    defaultBlendConfig.blend_brake_point 80 (some brake60_stats) =
      { blended_value := 80, physics_ceiling := 80, learned_value := some 80,
        learned_weight := 3/10, observation_count := 20,
        was_physics_limited := false } := by
  norm_num [BlendConfig.blend_brake_point, brake_blend,
    BlendConfig.compute_learned_weight,
    SegmentStatistics.get_learned_brake_point,
    SegmentStatistics.has_sufficient_data,
    SegmentStatistics.effective_observation_count,
    brake60_stats, SegmentStatistics.mkDefault, defaultBlendConfig]

/-- C2 counterexample.  With physics minimum 80 m and a driver whose learned
brake estimate is 60 m (braking later than physics allows),
`blend_brake_point` does return 80 — but with the normal learned weight
0.30 and `was_physics_limited = false`, not weight 0 and the flag set as
the claim states: `get_learned_brake_point` has already raised the learned
point to the physics minimum, so the engine's weight-0 branch never
fires. -/
theorem C2_counterexample_brake_flag_not_set :
    max brake60_stats.brake_point_latest_m
      (brake60_stats.brake_point_mean_m - brake60_stats.brake_point_std_m) = 60 ∧
    (60:ℚ) < 80 ∧
    (defaultBlendConfig.blend_brake_point 80 (some brake60_stats)).blended_value = 80 ∧
    ¬ ((defaultBlendConfig.blend_brake_point 80 (some brake60_stats)).learned_weight = 0 ∧
       (defaultBlendConfig.blend_brake_point 80 (some brake60_stats)).was_physics_limited
         = true) := by
  refine ⟨by norm_num [brake60_stats, SegmentStatistics.mkDefault], by norm_num,
    by rw [brake60_eval], ?_⟩
  rw [brake60_eval]
  norm_num

/-- C2 (amended).  If the driver's learned brake estimate
`max(latest, mean - std)` is at most the physics minimum (braking later
than physics allows), `blend_brake_point` returns exactly the physics
minimum as the blended value; but the learned value reported is the
clamped physics minimum, the learned weight is the normally computed
weight, and `was_physics_limited` is false, because the store accessor
already clamps the learned point up to the physics minimum. -/
theorem C2_brake_point_physics_wins_amended (cfg : BlendConfig) (P : ℚ)
    (s : SegmentStatistics) (hs : s.has_sufficient_data)
    (hlate : max s.brake_point_latest_m
      (s.brake_point_mean_m - s.brake_point_std_m) ≤ P) :
    (cfg.blend_brake_point P (some s)).blended_value = P ∧
    (cfg.blend_brake_point P (some s)).was_physics_limited = false ∧
    (cfg.blend_brake_point P (some s)).learned_value = some P ∧
    (cfg.blend_brake_point P (some s)).learned_weight
      = cfg.compute_learned_weight s := by
  have hlp : s.get_learned_brake_point P = P := by
    unfold SegmentStatistics.get_learned_brake_point
    rw [if_pos hs]
    exact max_eq_right hlate
  rw [blend_brake_point_main cfg P s hs, hlp]
  refine ⟨?_, rfl, rfl, rfl⟩
  simp only [brake_blend]
  ring

/-- C2 witness: physics minimum 80 m, learned estimate 60 m — the blended
value is the physics minimum 80 and the physics-limited flag is false. -/
theorem C2_brake_point_physics_wins_amended_witness :
    (defaultBlendConfig.blend_brake_point 80 (some brake60_stats)).blended_value = 80 ∧
    (defaultBlendConfig.blend_brake_point 80 (some brake60_stats)).was_physics_limited
      = false ∧
    (defaultBlendConfig.blend_brake_point 80 (some brake60_stats)).learned_value
      = some 80 ∧
    (defaultBlendConfig.blend_brake_point 80 (some brake60_stats)).learned_weight
      = defaultBlendConfig.compute_learned_weight brake60_stats :=
  C2_brake_point_physics_wins_amended defaultBlendConfig 80 brake60_stats
    (by norm_num [SegmentStatistics.has_sufficient_data,
      SegmentStatistics.effective_observation_count, brake60_stats,
      SegmentStatistics.mkDefault])
    (by norm_num [brake60_stats, SegmentStatistics.mkDefault])

/-- C3 counterexample.  At ceiling 1, learned 0, weight 1 and margin 1 —
all within the ranges the claim quantifies over (`L ≤ C`, `w ∈ [0,1]`,
`m ∈ [0,1]`) — the corner-blend arithmetic lands strictly below the
learned value: the claimed invariant `L ≤ blended` fails. -/
theorem C3_counterexample_blend_below_learned :
    (0:ℚ) ≤ 1 ∧ ((0:ℚ) ≤ 1 ∧ (1:ℚ) ≤ 1) ∧ corner_blend 1 0 1 1 < 0 := by
  norm_num [corner_blend]

/-- C3 (amended).  The corner-blend computation satisfies
`L ≤ blended ≤ C` for `L ≤ C`, `w ∈ [0,1]` and `m ∈ [0,1]` provided
additionally `w * (1 + m) ≤ 1`; this holds for every weight/margin pair the
engine can produce (`w ≤ 0.30`, `m = 0.05`).  The upper bound `blended ≤ C`
needs no extra hypothesis. -/
theorem C3_corner_blend_bounds_amended (C L w m : ℚ) (hL : L ≤ C)
    (hw0 : 0 ≤ w) (hw1 : w ≤ 1) (hm0 : 0 ≤ m) (hm1 : m ≤ 1)
    (hwm : w * (1 + m) ≤ 1) :
    L ≤ corner_blend C L w m ∧ corner_blend C L w m ≤ C :=
  ⟨corner_blend_ge C L w m hL hw0 hm0 hwm,
   corner_blend_le C L w m hL hw0 hm0⟩

/-- C3 witness: ceiling 100, learned 80, the engine's own maximal weight
0.30 and default margin 0.05 (`w * (1 + m) = 0.315 ≤ 1`). -/
theorem C3_corner_blend_bounds_amended_witness :
    (80:ℚ) ≤ corner_blend 100 80 (3/10) (1/20) ∧
    corner_blend 100 80 (3/10) (1/20) ≤ 100 :=
  C3_corner_blend_bounds_amended 100 80 (3/10) (1/20) (by norm_num)
    (by norm_num) (by norm_num) (by norm_num) (by norm_num) (by norm_num)

/-- C5.  If segment statistics are absent, or present with effective
observation count below 3, both blends return exactly the physics value,
with learned weight 0 and no learned value (and the observation count of
the statistics, if any, echoed back). -/
theorem C5_no_data_blends_return_physics (cfg : BlendConfig) (C P : ℚ)
    (stats : Option SegmentStatistics)
    (h : ∀ s, stats = some s → s.effective_observation_count < 3) :
    cfg.blend_corner_speed C stats =
      { blended_value := C, physics_ceiling := C, learned_value := none,
        learned_weight := 0,
        observation_count :=
          (match stats with | none => 0 | some s => s.observation_count),
        was_physics_limited := false } ∧
    cfg.blend_brake_point P stats =
      { blended_value := P, physics_ceiling := P, learned_value := none,
        learned_weight := 0,
        observation_count :=
          (match stats with | none => 0 | some s => s.observation_count),
        was_physics_limited := false } := by
  cases stats with
  | none => exact ⟨blend_corner_speed_none cfg C, blend_brake_point_none cfg P⟩
  | some s =>
      have hs : ¬ s.has_sufficient_data := by
        unfold SegmentStatistics.has_sufficient_data
        exact not_le.mpr (h s rfl)
      exact ⟨blend_corner_speed_insufficient cfg C s hs,
        blend_brake_point_insufficient cfg P s hs⟩

/-- C5 witness: absent statistics at ceiling 100 / physics minimum 80. -/
theorem C5_no_data_blends_return_physics_witness :
    defaultBlendConfig.blend_corner_speed 100 none =
      { blended_value := 100, physics_ceiling := 100, learned_value := none,
        learned_weight := 0, observation_count := 0,
        was_physics_limited := false } ∧
    defaultBlendConfig.blend_brake_point 80 none =
      { blended_value := 80, physics_ceiling := 80, learned_value := none,
        learned_weight := 0, observation_count := 0,
        was_physics_limited := false } :=
  C5_no_data_blends_return_physics defaultBlendConfig 100 80 none
    (fun s h => nomatch h)

/-- The learned weight at the default configuration, as an explicit
function of the effective observation count. -/
theorem default_weight_eq (s : SegmentStatistics) :
    defaultBlendConfig.compute_learned_weight s =
      if s.effective_observation_count < 3 then 0
      else min ((s.effective_observation_count - 3) / 17) 1 * (3/10) := by
  simp only [BlendConfig.compute_learned_weight, defaultBlendConfig]
  norm_num

/-- C7.  At the default configuration, the learned blend weight is 0 below
3 effective observations, non-decreasing in the effective observation
count, exactly the maximum influence 0.30 from 20 effective observations
on, and never above 0.30. -/
theorem C7_learned_weight_ramp :
    (∀ s : SegmentStatistics, s.effective_observation_count < 3 →
        defaultBlendConfig.compute_learned_weight s = 0) ∧
    (∀ s t : SegmentStatistics,
        s.effective_observation_count ≤ t.effective_observation_count →
        defaultBlendConfig.compute_learned_weight s ≤
          defaultBlendConfig.compute_learned_weight t) ∧
    (∀ s : SegmentStatistics, 20 ≤ s.effective_observation_count →
        defaultBlendConfig.compute_learned_weight s = 3/10) ∧
    (∀ s : SegmentStatistics, defaultBlendConfig.compute_learned_weight s ≤ 3/10) := by
  refine ⟨?_, ?_, ?_, ?_⟩
  · intro s h
    rw [default_weight_eq, if_pos h]
  · intro s t h
    rw [default_weight_eq, default_weight_eq]
    by_cases h1 : s.effective_observation_count < 3
    · rw [if_pos h1]
      by_cases h2 : t.effective_observation_count < 3
      · rw [if_pos h2]
      · rw [if_neg h2]
        have h2le := not_lt.mp h2
        apply mul_nonneg _ (by norm_num)
        exact le_min (div_nonneg (by linarith) (by norm_num)) (by norm_num)
    · have h2 : ¬ t.effective_observation_count < 3 :=
        fun hc => h1 (lt_of_le_of_lt h hc)
      rw [if_neg h1, if_neg h2]
      apply mul_le_mul_of_nonneg_right _ (by norm_num)
      apply min_le_min _ (le_refl 1)
      exact (div_le_div_iff_of_pos_right (by norm_num : (0:ℚ) < 17)).mpr (by linarith)
  · intro s h
    have h3 : ¬ s.effective_observation_count < 3 := by
      intro hc; linarith
    rw [default_weight_eq, if_neg h3]
    have hmin : min ((s.effective_observation_count - 3) / 17) 1 = 1 := by
      apply min_eq_right
      rw [le_div_iff₀ (by norm_num : (0:ℚ) < 17)]
      linarith
    rw [hmin, one_mul]
  · intro s
    have := compute_learned_weight_le defaultBlendConfig s
      (by norm_num [defaultBlendConfig])
    simpa [defaultBlendConfig] using this

/-- C7 witness: weights at effective counts 2, 10, 25 — zero below the
minimum, monotone across the ramp, saturated at 0.30 beyond 20. -/
theorem C7_learned_weight_ramp_witness :
    defaultBlendConfig.compute_learned_weight few_obs_stats = 0 ∧
    defaultBlendConfig.compute_learned_weight mid_obs_stats ≤
      defaultBlendConfig.compute_learned_weight many_obs_stats ∧
    defaultBlendConfig.compute_learned_weight many_obs_stats = 3/10 :=
  ⟨C7_learned_weight_ramp.1 few_obs_stats
      (by norm_num [few_obs_stats, SegmentStatistics.mkDefault,
        SegmentStatistics.effective_observation_count]),
   C7_learned_weight_ramp.2.1 mid_obs_stats many_obs_stats
      (by norm_num [mid_obs_stats, many_obs_stats, SegmentStatistics.mkDefault,
        SegmentStatistics.effective_observation_count]),
   C7_learned_weight_ramp.2.2.1 many_obs_stats
      (by norm_num [many_obs_stats, SegmentStatistics.mkDefault,
        SegmentStatistics.effective_observation_count])⟩

/-- C10.  The store accessor `get_learned_brake_point` never returns a
value below the physics minimum (it takes the maximum of the conservative
learned estimate and the physics minimum); consequently the blend engine's
physics-limited branch for brake points is unreachable, and
`blend_brake_point` never sets `was_physics_limited`. -/
theorem C10_brake_accessor_clamps_to_physics :
    (∀ (s : SegmentStatistics) (P : ℚ), P ≤ s.get_learned_brake_point P) ∧
    (∀ (cfg : BlendConfig) (P : ℚ) (stats : Option SegmentStatistics),
      (cfg.blend_brake_point P stats).was_physics_limited = false) := by
  refine ⟨get_learned_brake_point_ge, ?_⟩
  intro cfg P stats
  cases stats with
  | none => rfl
  | some s =>
      by_cases hs : s.has_sufficient_data
      · rw [blend_brake_point_main cfg P s hs]
      · rw [blend_brake_point_insufficient cfg P s hs]

/-- C4.  `envelope_speed ≤ physics_ceiling.value` holds for every
`CornerSpeedEnvelope` immediately after construction (the `__post_init__`
clamp), is preserved by `blend_with_learned` for every learned speed and
every blend weight, and is preserved across the manager's
`update_from_learning` for every stored envelope map already satisfying
it. -/
theorem C4_envelope_ceiling_invariant :
    (∀ (sid : ℤ) (ds de : ℚ) (ceil : PhysicsCeiling ℚ) (cons : ℚ)
        (ls : Option ℚ) (conf es : ℚ) (radius : Option ℚ) (curv : ℚ),
        ceilingInvariant
          (mkCornerSpeedEnvelope sid ds de ceil cons ls conf es radius curv)) ∧
    (∀ (e : CornerSpeedEnvelope) (ls w : ℚ),
        ceilingInvariant (e.blend_with_learned ls w)) ∧
    (∀ (envelopes : List (ℤ × SegmentEnvelope)) (sid : ℤ) (ls w : ℚ),
        (∀ p ∈ envelopes, ∀ cs, (p.2).corner_speed = some cs →
          ceilingInvariant cs) →
        ∀ p ∈ (update_from_learning envelopes sid ls w).1, ∀ cs,
          (p.2).corner_speed = some cs → ceilingInvariant cs) := by
  have h1 : ∀ (sid : ℤ) (ds de : ℚ) (ceil : PhysicsCeiling ℚ) (cons : ℚ)
      (ls : Option ℚ) (conf es : ℚ) (radius : Option ℚ) (curv : ℚ),
      ceilingInvariant
        (mkCornerSpeedEnvelope sid ds de ceil cons ls conf es radius curv) := by
    intro sid ds de ceil cons ls conf es radius curv
    show (if ceil.value < es then ceil.value else es) ≤ ceil.value
    split
    · exact le_refl _
    · rename_i h
      exact le_of_not_lt h
  have h2 : ∀ (e : CornerSpeedEnvelope) (ls w : ℚ),
      ceilingInvariant (e.blend_with_learned ls w) := by
    intro e ls w
    unfold CornerSpeedEnvelope.blend_with_learned
    apply h1
  refine ⟨h1, h2, ?_⟩
  intro envelopes sid ls w hinv
  unfold update_from_learning
  cases hl : envelopes.lookup sid with
  | none => exact hinv
  | some envelope =>
      dsimp only
      cases hc : envelope.corner_speed with
      | none => exact hinv
      | some corner =>
          dsimp only
          intro p hp cs hcs
          rcases List.mem_map.mp hp with ⟨q, hq, rfl⟩
          by_cases hqs : q.1 = sid
          · rw [if_pos hqs] at hcs
            simp only [Option.some.injEq] at hcs
            subst hcs
            exact h2 corner ls w
          · rw [if_neg hqs] at hcs
            exact hinv q hq cs hcs

/-- The one-segment envelope store `[(1, c4_seg)]` satisfies the ceiling
invariant. -/
theorem c4_store_inv :
    ∀ p ∈ [((1:ℤ), c4_seg)], ∀ cs, (p.2).corner_speed = some cs →
      ceilingInvariant cs := by
  intro p hp cs hcs
  rw [List.mem_singleton] at hp
  subst hp
  simp only [c4_seg, Option.some.injEq] at hcs
  subst hcs
  norm_num [ceilingInvariant, c4_env, mkCornerSpeedEnvelope]

/-- Evaluation of `update_from_learning` on the one-segment store. -/
theorem c4_update_eval :
    (update_from_learning [((1:ℤ), c4_seg)] 1 200 1).1 =
      [((1:ℤ), c4_updated_seg)] := rfl

/-- C4 witness: learning 200 km/h at raw weight 1 against a 120 km/h
ceiling still leaves the stored envelope within its ceiling. -/
theorem C4_envelope_ceiling_invariant_witness :
    ceilingInvariant c4_updated_env :=
  C4_envelope_ceiling_invariant.2.2 [((1:ℤ), c4_seg)] 1 200 1 c4_store_inv
    ((1:ℤ), c4_updated_seg)
    (by rw [c4_update_eval]; exact List.mem_singleton.mpr rfl)
    c4_updated_env rfl

/-- C6.  `add_observation` is a no-op for every observation that is dirty
(`was_clean = false`) or has confidence below 0.7: the store — windows and
statistics alike — is left entirely unchanged, no matter how many times
the observation is fed in. -/
theorem C6_rejected_observation_is_noop (store : SegmentStatsStore)
    (observation : SegmentObservation)
    (h : observation.was_clean = false ∨ observation.confidence < 7/10) :
    add_observation store observation = store ∧
    ∀ n : ℕ, (fun st => add_observation st observation)^[n] store = store := by
  have h1 : add_observation store observation = store := by
    unfold add_observation
    rcases h with h | h
    · rw [if_pos h]
    · by_cases hc : observation.was_clean = false
      · rw [if_pos hc]
      · rw [if_neg hc, if_pos h]
  refine ⟨h1, ?_⟩
  intro n
  induction n with
  | zero => rfl
  | succ k ih =>
      rw [Function.iterate_succ_apply]
      show (fun st => add_observation st observation)^[k]
        (add_observation store observation) = store
      rw [h1]
      exact ih

/-- C6 witness: the test suite's dirty observation, fed once and five
times into a fresh store, leaves it untouched. -/
theorem C6_rejected_observation_is_noop_witness :
    add_observation emptyStore dirty_observation = emptyStore ∧
    (fun st => add_observation st dirty_observation)^[5] emptyStore
      = emptyStore :=
  ⟨(C6_rejected_observation_is_noop emptyStore dirty_observation (Or.inl rfl)).1,
   (C6_rejected_observation_is_noop emptyStore dirty_observation (Or.inl rfl)).2 5⟩

/-- C8.  When several decay triggers fire in one `update_conditions` call,
the factor applied to the store is the product of the individual factors
floored at `min_decay_factor`; in particular a weather change (factor 0)
simultaneous with a tire change (factor 0.3) — and no other trigger —
applies exactly the floor 0.1 to every segment, not 0. -/
theorem C8_simultaneous_triggers_floored (store : SegmentStatsStore)
    (prev current : ConditionState)
    (hweather : current.is_dry ≠ prev.is_dry)
    (htemp : |current.track_temp_c - prev.track_temp_c| < 10)
    (hsurf1 : current.surface_type = prev.surface_type)
    (hsurf2 : current.surface_condition = prev.surface_condition)
    (hbreak : current.last_activity - prev.last_activity ≤ 60)
    (htire : current.tire_compound ≠ prev.tire_compound)
    (hveh : current.vehicle_id = prev.vehicle_id) :
    (∀ (cfg : DecayConfig) (ds : List (DecayTrigger × ℚ)), ds ≠ [] →
      combine_decay_factors cfg ds =
        max (ds.foldl (fun combined p => combined * p.2) 1) cfg.min_decay_factor) ∧
    (update_conditions
        { config := defaultDecayConfig, stats := some store,
          _previous_conditions := some prev } current).2 =
      [(DecayTrigger.WEATHER_CHANGE, 0), (DecayTrigger.TIRE_CHANGE, 3/10)] ∧
    combine_decay_factors defaultDecayConfig
        [(DecayTrigger.WEATHER_CHANGE, 0), (DecayTrigger.TIRE_CHANGE, 3/10)]
      = 1/10 ∧
    (update_conditions
        { config := defaultDecayConfig, stats := some store,
          _previous_conditions := some prev } current).1.stats =
      some (apply_global_decay store (1/10)) := by
  have hcomb : ∀ (cfg : DecayConfig) (ds : List (DecayTrigger × ℚ)), ds ≠ [] →
      combine_decay_factors cfg ds =
        max (ds.foldl (fun combined p => combined * p.2) 1) cfg.min_decay_factor := by
    intro cfg ds hds
    unfold combine_decay_factors
    rw [if_neg hds]
  have hnotemp : ¬ (10:ℚ) ≤ |current.track_temp_c - prev.track_temp_c| :=
    not_le.mpr htemp
  have hnosurf : ¬ (current.surface_type ≠ prev.surface_type ∨
      current.surface_condition ≠ prev.surface_condition) := by
    simp [hsurf1, hsurf2]
  have hnobreak : ¬ defaultDecayConfig.session_break_threshold_minutes <
      current.last_activity - prev.last_activity := by
    unfold defaultDecayConfig
    exact not_lt.mpr hbreak
  have hnoveh : ¬ (current.vehicle_id ≠ "" ∧ prev.vehicle_id ≠ "" ∧
      current.vehicle_id ≠ prev.vehicle_id) := by
    intro hv
    exact hv.2.2 hveh
  have hlist : (update_conditions
      { config := defaultDecayConfig, stats := some store,
        _previous_conditions := some prev } current).2 =
      [(DecayTrigger.WEATHER_CHANGE, 0), (DecayTrigger.TIRE_CHANGE, 3/10)] := by
    simp only [update_conditions]
    rw [if_pos hweather, if_neg hnotemp, if_neg hnosurf, if_neg hnobreak,
      if_pos htire, if_neg hnoveh]
    rfl
  have hfactor : combine_decay_factors defaultDecayConfig
      [(DecayTrigger.WEATHER_CHANGE, 0), (DecayTrigger.TIRE_CHANGE, 3/10)]
      = 1/10 := by
    rw [hcomb defaultDecayConfig _ (by simp)]
    norm_num [defaultDecayConfig]
  refine ⟨hcomb, hlist, hfactor, ?_⟩
  simp only [update_conditions]
  rw [if_pos hweather, if_neg hnotemp, if_neg hnosurf, if_neg hnobreak,
    if_pos htire, if_neg hnoveh]
  rw [if_pos (by simp : ([(DecayTrigger.WEATHER_CHANGE,
    defaultDecayConfig.weather_change_decay)] ++ ([] : List (DecayTrigger × ℚ)) ++
    [] ++ [] ++ [(DecayTrigger.TIRE_CHANGE, defaultDecayConfig.tire_change_decay)] ++
    [] : List (DecayTrigger × ℚ)) ≠ [])]
  show some (apply_global_decay store _) = some (apply_global_decay store (1/10))
  rw [show combine_decay_factors defaultDecayConfig
    ([(DecayTrigger.WEATHER_CHANGE, defaultDecayConfig.weather_change_decay)] ++
      ([] : List (DecayTrigger × ℚ)) ++ [] ++ [] ++
      [(DecayTrigger.TIRE_CHANGE, defaultDecayConfig.tire_change_decay)] ++ [])
      = 1/10 from by
    rw [hcomb defaultDecayConfig _ (by simp)]
    norm_num [defaultDecayConfig]]

/-- C8 witness: dry → wet plus street → slick tires, half an hour into the
session, on a one-segment store — the applied decay factor is 0.1. -/
theorem C8_simultaneous_triggers_floored_witness :
    (update_conditions
        { config := defaultDecayConfig, stats := some decay_witness_store,
          _previous_conditions := some prev_conditions }
        wet_newtires_conditions).2 =
      [(DecayTrigger.WEATHER_CHANGE, 0), (DecayTrigger.TIRE_CHANGE, 3/10)] ∧
    combine_decay_factors defaultDecayConfig
        [(DecayTrigger.WEATHER_CHANGE, 0), (DecayTrigger.TIRE_CHANGE, 3/10)]
      = 1/10 ∧
    (update_conditions
        { config := defaultDecayConfig, stats := some decay_witness_store,
          _previous_conditions := some prev_conditions }
        wet_newtires_conditions).1.stats =
      some (apply_global_decay decay_witness_store (1/10)) :=
  ((C8_simultaneous_triggers_floored decay_witness_store prev_conditions
    wet_newtires_conditions
    (by simp [prev_conditions, wet_newtires_conditions])
    (by norm_num [prev_conditions, wet_newtires_conditions])
    rfl rfl
    (by norm_num [prev_conditions, wet_newtires_conditions])
    (by simp [prev_conditions, wet_newtires_conditions])
    rfl).2 : _ ∧ _ ∧ _)

/-- C9 counterexample.  With a longitudinal shape factor of 0.5,
longitudinal input 0.5 g against a 1 g capacity and no lateral input, the
spec's shaped total is `sqrt(1²+0²) = 1`, but the envelope returned by
`compute_grip_usage` reports `total_grip_used = sqrt(0.5²+0²) = 0.5`: the
source computes the shaped total and then discards it, storing the
unshaped fractions. -/
theorem C9_counterexample_shaped_total_not_reported :
    (compute_grip_usage halfLongFrictionCircleConfig (1/2) 0 1
        (6/5)).total_grip_used ≠
      spec_shaped_total halfLongFrictionCircleConfig (1/2) 0 1 (6/5) := by
  have habs : |(1:ℝ)/2| = 1/2 := abs_of_pos (by norm_num)
  have hL : (compute_grip_usage halfLongFrictionCircleConfig (1/2) 0 1
      (6/5)).total_grip_used = 1/2 := by
    simp only [compute_grip_usage, CombinedGripEnvelope.total_grip_used]
    rw [show (|(1:ℝ)/2| / 1) ^ 2 + (|(0:ℝ)| / (6/5)) ^ 2 = (1/2)^2 by
      rw [habs]; norm_num]
    exact Real.sqrt_sq (by norm_num)
  have hR : spec_shaped_total halfLongFrictionCircleConfig (1/2) 0 1 (6/5)
      = 1 := by
    simp only [spec_shaped_total, halfLongFrictionCircleConfig,
      defaultFrictionCircleConfig]
    rw [show (|(1:ℝ)/2| / 1 / (1/2)) ^ 2 + (|(0:ℝ)| / (6/5) / 1) ^ 2 = 1 by
      rw [habs]; norm_num]
    exact Real.sqrt_one
  rw [hL, hR]
  norm_num

/-- C9 (amended).  The envelope returned by `compute_grip_usage` has
`total_grip_used = sqrt(fx² + fy²)` of the *unshaped* normalized fractions
`fx = |longitudinal|/max_longitudinal`, `fy = |lateral|/max_lateral`; this
coincides with the spec's shaped formula exactly when both shape factors
are 1 (the default configuration). -/
theorem C9_grip_usage_total_amended (cfg : FrictionCircleConfig)
    (longitudinal_g lateral_g max_longitudinal_g max_lateral_g : ℝ) :
    (compute_grip_usage cfg longitudinal_g lateral_g max_longitudinal_g
        max_lateral_g).total_grip_used =
      Real.sqrt ((|longitudinal_g| / max_longitudinal_g) ^ 2 +
        (|lateral_g| / max_lateral_g) ^ 2) ∧
    (cfg.longitudinal_factor = 1 → cfg.lateral_factor = 1 →
      (compute_grip_usage cfg longitudinal_g lateral_g max_longitudinal_g
          max_lateral_g).total_grip_used =
        spec_shaped_total cfg longitudinal_g lateral_g max_longitudinal_g
          max_lateral_g) := by
  constructor
  · rfl
  · intro h1 h2
    simp only [compute_grip_usage, CombinedGripEnvelope.total_grip_used,
      spec_shaped_total, h1, h2, div_one]

/-- C9 witness: the spec's own friction-circle scenario (0.6 g and 0.8 g
against unit capacities) at the default circular configuration, where the
reported total and the shaped formula agree. -/
theorem C9_grip_usage_total_amended_witness :
    (compute_grip_usage defaultFrictionCircleConfig (3/5) (4/5) 1
        1).total_grip_used =
      spec_shaped_total defaultFrictionCircleConfig (3/5) (4/5) 1 1 :=
  (C9_grip_usage_total_amended defaultFrictionCircleConfig (3/5) (4/5) 1 1).2
    rfl rfl

end RacerTune
